import Mathlib

/-!
# Verification of the rcon-cli protocol core

A shallow embedding of the RCON protocol engine of `etheria-project/rcon-cli`
(`src/protocol.rs`, `src/client.rs`, `src/error.rs`), together with proofs of
the testable properties stated in the specification.

Modelling conventions:
* Rust `i32` values are Lean `Int`s; twos-complement casts and wraparound are
  written out explicitly (`% 2^32`, `% 2^64`).
* Rust `usize` arithmetic is modelled with release (wrapping) semantics,
  `% 2^64`; a wrapped value that is then used as an allocation size larger
  than `isize::MAX` makes the process abort, which the model renders as
  `none` (no value is returned to the caller).
* Byte buffers are `List Nat` (each entry a byte value); a Rust `String`
  payload is represented by its UTF-8 bytes.
* Fallible Rust functions returning `Result<T, RconError>` become
  `Except RconError T`; a function that can additionally panic or abort
  returns `Option (Except RconError T)`, with `none` for the crash.
-/

/-- The error enumeration of `src/error.rs` (`RconError`).  The `io::Error`
payload of `Network` is not modelled; the `String` payloads are kept. -/
inductive RconError where
  | Network : RconError
  | Timeout : RconError
  | AuthenticationFailed : RconError
  | InvalidPacket : String → RconError
  | Protocol : String → RconError
  | Disconnected : RconError
  | CommandFailed : String → RconError
  | InvalidConfig : String → RconError
deriving DecidableEq, Repr

/-- `packet_type::AUTH` (src/protocol.rs line 7). -/
def packet_type.AUTH : Int := 3

/-- `packet_type::EXECCOMMAND` (src/protocol.rs line 8). -/
def packet_type.EXECCOMMAND : Int := 2

/-- `packet_type::RESPONSE_VALUE` (src/protocol.rs line 9). -/
def packet_type.RESPONSE_VALUE : Int := 0

/-- `MAX_REQUEST_PAYLOAD_SIZE` (src/protocol.rs line 13). -/
def MAX_REQUEST_PAYLOAD_SIZE : Nat := 1446

/-- `MAX_RESPONSE_PAYLOAD_SIZE` (src/protocol.rs line 16). -/
def MAX_RESPONSE_PAYLOAD_SIZE : Nat := 4096

/-- The `RconPacket` struct (src/protocol.rs lines 20-24).  `request_id` and
`packet_type` are `i32`; `payload` is the UTF-8 byte sequence of the `String`
payload. -/
structure RconPacket where
  request_id : Int
  packet_type : Int
  payload : List Nat
deriving DecidableEq, Repr

/-- The `u32` twos-complement representative of an `i32` value. -/
def toU32 (v : Int) : Nat := (v % (4294967296 : Int)).toNat

/-- `write_i32::<LittleEndian>`: the four little-endian bytes of an `i32`. -/
def encodeI32LE (v : Int) : List Nat :=
  [toU32 v % 256, toU32 v / 256 % 256, toU32 v / 65536 % 256,
   toU32 v / 16777216 % 256]

/-- `read_i32::<LittleEndian>`: an `i32` from four little-endian bytes. -/
def decodeI32LE (b0 b1 b2 b3 : Nat) : Int :=
  let u : Nat := b0 + 256 * b1 + 65536 * b2 + 16777216 * b3
  if u < 2147483648 then (u : Int) else (u : Int) - 4294967296

/-- Whether a byte is a UTF-8 continuation byte (`0x80..=0xBF`). -/
def isUtf8Cont (b : Nat) : Bool := 128 ≤ b && b ≤ 191

/-- Allowed second byte of a three-byte UTF-8 sequence with lead byte `b`. -/
def utf8Second3Ok (b c : Nat) : Bool :=
  if b == 224 then 160 ≤ c && c ≤ 191
  else if b == 237 then 128 ≤ c && c ≤ 159
  else isUtf8Cont c

/-- Allowed second byte of a four-byte UTF-8 sequence with lead byte `b`. -/
def utf8Second4Ok (b c : Nat) : Bool :=
  if b == 240 then 144 ≤ c && c ≤ 191
  else if b == 244 then 128 ≤ c && c ≤ 143
  else isUtf8Cont c

/-- UTF-8 encoding of U+FFFD, the replacement character. -/
def replacementBytes : List Nat := [239, 191, 189]

/-- Byte-level model of `String::from_utf8_lossy`: valid UTF-8 sequences are
copied through unchanged, and each maximal invalid subpart is replaced by the
bytes of U+FFFD (the Unicode "maximal subpart" substitution that Rust
implements).  On valid UTF-8 input it is the identity. -/
def utf8Lossy : List Nat → List Nat
  | [] => []
  | b :: rest =>
    if b ≤ 127 then b :: utf8Lossy rest
    else if 194 ≤ b && b ≤ 223 then
      match rest with
      | [] => replacementBytes
      | c :: rest2 =>
        if isUtf8Cont c then b :: c :: utf8Lossy rest2
        else replacementBytes ++ utf8Lossy (c :: rest2)
    else if 224 ≤ b && b ≤ 239 then
      match rest with
      | [] => replacementBytes
      | c :: rest2 =>
        if utf8Second3Ok b c then
          match rest2 with
          | [] => replacementBytes
          | d :: rest3 =>
            if isUtf8Cont d then b :: c :: d :: utf8Lossy rest3
            else replacementBytes ++ utf8Lossy (d :: rest3)
        else replacementBytes ++ utf8Lossy (c :: rest2)
    else if 240 ≤ b && b ≤ 244 then
      match rest with
      | [] => replacementBytes
      | c :: rest2 =>
        if utf8Second4Ok b c then
          match rest2 with
          | [] => replacementBytes
          | d :: rest3 =>
            if isUtf8Cont d then
              match rest3 with
              | [] => replacementBytes
              | e :: rest4 =>
                if isUtf8Cont e then b :: c :: d :: e :: utf8Lossy rest4
                else replacementBytes ++ utf8Lossy (e :: rest4)
            else replacementBytes ++ utf8Lossy (d :: rest3)
        else replacementBytes ++ utf8Lossy (c :: rest2)
    else replacementBytes ++ utf8Lossy rest

/-- `.trim_end_matches('\0')` on the decoded text, at the byte level: in any
`from_utf8_lossy` output a `0x00` byte is exactly a U+0000 character, so
trimming trailing `'\0'` characters removes the trailing zero bytes. -/
def trimTrailingZeros (l : List Nat) : List Nat :=
  (l.reverse.dropWhile (fun b => b == 0)).reverse

/-- The message of the `to_bytes` size-limit error (src/protocol.rs
lines 52-56). -/
def payloadTooLargeMsg (n : Nat) : String :=
  "Payload too large: " ++ toString n ++ " bytes (max: " ++
    toString MAX_REQUEST_PAYLOAD_SIZE ++ ")"

/-- `RconPacket::to_bytes` (src/protocol.rs lines 47-84).  The `Vec` writes
cannot fail, so the only error case is the payload size check.  The
`packet_size as i32` cast is exact because the size is at most 1456 here. -/
def RconPacket.to_bytes (p : RconPacket) : Except RconError (List Nat) :=
  if p.payload.length > MAX_REQUEST_PAYLOAD_SIZE then
    .error (.InvalidPacket (payloadTooLargeMsg p.payload.length))
  else
    let packet_size : Nat := 4 + 4 + p.payload.length + 2
    .ok (encodeI32LE (packet_size : Int) ++ encodeI32LE p.request_id ++
      encodeI32LE p.packet_type ++ p.payload ++ [0, 0])

/-- The message of the `from_bytes` minimum-length error (src/protocol.rs
lines 88-92); the spec calls this failure `Truncated`. -/
def tooShortMsg : String := "Packet too short (minimum 12 bytes required)"

/-- The message of the `from_bytes` length-mismatch error (src/protocol.rs
lines 103-109); the spec calls this failure `LengthMismatch`. -/
def lengthMismatchMsg (expected got : Nat) : String :=
  "Packet length mismatch: expected " ++ toString expected ++ ", got " ++
    toString got

/-- `packet_length as usize + 4` (src/protocol.rs line 102): the `as` cast
sign-extends a negative `i32` to a huge `usize`, and the addition wraps
at `2^64`. -/
def expectedTotalLength (packet_length : Int) : Nat :=
  ((packet_length % (18446744073709551616 : Int)).toNat + 4) %
    18446744073709551616

/-- `packet_length as usize - 8 - 2` (src/protocol.rs line 121) with wrapping
`usize` subtraction: for `packet_length < 10` the value wraps around `2^64`
(in a debug build the same subtraction panics instead). -/
def payloadLengthField (packet_length : Int) : Nat :=
  ((packet_length % (18446744073709551616 : Int)).toNat +
    18446744073709551616 - 8 - 2) % 18446744073709551616

/-- `RconPacket::from_bytes` (src/protocol.rs lines 87-139).  `none` models a
crash: when the payload-length subtraction wraps, `vec![0u8; payload_length]`
asks for an allocation above `isize::MAX` and the process aborts (and a debug
build already panics in the subtraction itself), so no value is returned. -/
def RconPacket.from_bytes (data : List Nat) :
    Option (Except RconError RconPacket) :=
  if data.length < 12 then
    some (.error (.InvalidPacket tooShortMsg))
  else
    let packet_length : Int :=
      decodeI32LE (data.getD 0 0) (data.getD 1 0) (data.getD 2 0)
        (data.getD 3 0)
    if data.length ≠ expectedTotalLength packet_length then
      some (.error (.InvalidPacket
        (lengthMismatchMsg (expectedTotalLength packet_length) data.length)))
    else
      let request_id : Int :=
        decodeI32LE (data.getD 4 0) (data.getD 5 0) (data.getD 6 0)
          (data.getD 7 0)
      let pkt_type : Int :=
        decodeI32LE (data.getD 8 0) (data.getD 9 0) (data.getD 10 0)
          (data.getD 11 0)
      let payload_length : Nat := payloadLengthField packet_length
      if payload_length ≥ 9223372036854775808 then none
      else if payload_length > 0 ∧ data.length < 12 + payload_length then
        some (.error (.InvalidPacket
          "Failed to read payload: failed to fill whole buffer"))
      else
        let payload_bytes : List Nat := (data.drop 12).take payload_length
        some (.ok
          { request_id := request_id
            packet_type := pkt_type
            payload := trimTrailingZeros (utf8Lossy payload_bytes) })

/-- `RconPacket::is_auth_response` (src/protocol.rs lines 142-144): auth
responses are typed `EXECCOMMAND(2)`, not `AUTH(3)`. -/
def RconPacket.is_auth_response (p : RconPacket) : Bool :=
  p.packet_type == packet_type.EXECCOMMAND

/-- `RconPacket::is_command_response` (src/protocol.rs lines 147-149). -/
def RconPacket.is_command_response (p : RconPacket) : Bool :=
  p.packet_type == packet_type.RESPONSE_VALUE

/-- `RconPacket::auth_successful` (src/protocol.rs lines 152-154). -/
def RconPacket.auth_successful (p : RconPacket)
    (expected_request_id : Int) : Bool :=
  p.is_auth_response && (p.request_id == expected_request_id)

deriving instance DecidableEq for Except

/-- Encode-then-decode: `none` when encoding failed or decoding crashed. -/
def roundtrip (p : RconPacket) : Option (Except RconError RconPacket) :=
  match p.to_bytes with
  | .error _ => none
  | .ok bs => RconPacket.from_bytes bs

/-- The initial value of the `next_request_id` field set up in
`RconClient::connect` (src/client.rs line 51). -/
def initial_next_request_id : Int := 1

/-- `i32::wrapping_add` in twos-complement arithmetic. -/
def i32_wrapping_add (a b : Int) : Int :=
  ((a + b + 2147483648) % 4294967296) - 2147483648

/-- `RconClient::next_request_id` (src/client.rs lines 224-231) as a pure
state transformer: from the stored counter it returns the allocated id and
the new counter value. -/
def next_request_id (state : Int) : Int × Int :=
  let id := state
  let n := i32_wrapping_add state 1
  let n2 := if n = -1 then 1 else n
  (id, n2)

/-- The success/failure decision of `RconClient::authenticate`
(src/client.rs lines 63-79) as a function of the fresh request id and the
single response packet that is read: `Ok(())` when
`response.auth_successful(request_id)`, otherwise
`Err(RconError::AuthenticationFailed)`. -/
def authenticate_step (request_id : Int) (response : RconPacket) :
    Except RconError Unit :=
  if response.auth_successful request_id then .ok ()
  else .error .AuthenticationFailed

/-- The size validation of `RconClient::read_packet` (src/client.rs
lines 139-151) on the `packet_length` prefix (already cast to `usize`). -/
def read_packet_size_valid (packet_length : Nat) : Bool :=
  !(packet_length < 8) && !(packet_length > MAX_RESPONSE_PAYLOAD_SIZE + 10)

/-- The message of the unexpected-packet-type error of
`RconClient::read_command_response` (src/client.rs lines 192-197). -/
def unexpectedTypeMsg (t : Int) : String :=
  "Expected command response, got packet type: " ++ toString t

/-- The message of the fragment-bound error of
`RconClient::read_command_response` (src/client.rs lines 213-217). -/
def tooManyPacketsMsg : String := "Too many response packets received"

/-- The loop body of `RconClient::read_command_response` (src/client.rs
lines 178-218).  The packet stream abstracts the successive successful
results of `read_packet`; exhausting it models a failing socket read
(`RconError::Network`).  Besides the `Result`, the number of packets read
(`packets_received` at exit) is returned. -/
def readCommandLoop (expected_request_id : Int) :
    List RconPacket → List Nat → Nat → Except RconError (List Nat) × Nat
  | [], _, received => (.error .Network, received)
  | p :: rest, full_response, received =>
    let received1 := received + 1
    if p.request_id ≠ expected_request_id then
      readCommandLoop expected_request_id rest full_response received1
    else if !p.is_command_response then
      (.error (.Protocol (unexpectedTypeMsg p.packet_type)), received1)
    else
      let full1 := full_response ++ p.payload
      if p.payload.length < MAX_RESPONSE_PAYLOAD_SIZE then (.ok full1, received1)
      else if received1 > 100 then
        (.error (.Protocol tooManyPacketsMsg), received1)
      else readCommandLoop expected_request_id rest full1 received1

/-- `RconClient::read_command_response` (src/client.rs lines 174-221) run
against a stream of incoming packets, starting from the empty accumulated
response and `packets_received = 0`. -/
def read_command_response (expected_request_id : Int)
    (stream : List RconPacket) : Except RconError (List Nat) × Nat :=
  readCommandLoop expected_request_id stream [] 0

/-- Decoding the four little-endian bytes of an `i32` value recovers it. -/
theorem decode_encode_i32 (v : Int) (h1 : -2147483648 ≤ v)
    (h2 : v < 2147483648) :
    decodeI32LE (toU32 v % 256) (toU32 v / 256 % 256) (toU32 v / 65536 % 256)
      (toU32 v / 16777216 % 256) = v := by
  simp only [decodeI32LE, toU32]
  split <;> omega

/-- An `i32` read from four bytes lies in the `i32` range. -/
theorem decodeI32LE_range (b0 b1 b2 b3 : Nat) (h0 : b0 < 256) (h1 : b1 < 256)
    (h2 : b2 < 256) (h3 : b3 < 256) :
    -2147483648 ≤ decodeI32LE b0 b1 b2 b3 ∧
      decodeI32LE b0 b1 b2 b3 < 2147483648 := by
  simp only [decodeI32LE]
  split <;> omega

/-- Trimming trailing zero bytes is the identity when the last byte is not zero. -/
theorem trimTrailingZeros_eq_self (l : List Nat) (h : l.getLast? ≠ some 0) :
    trimTrailingZeros l = l := by
  unfold trimTrailingZeros
  cases hr : l.reverse with
  | nil =>
    rw [List.reverse_eq_nil_iff] at hr
    simp [hr]
  | cons a rs =>
    have ha : l.getLast? = some a := by
      rw [← List.head?_reverse, hr]
      rfl
    have hane : a ≠ 0 := fun e => h (by rw [ha, e])
    rw [List.dropWhile_cons]
    simp only [beq_iff_eq, hane, if_false]
    rw [← hr, List.reverse_reverse]

/-- Evaluation of `from_bytes` on a buffer whose first twelve bytes are explicit. -/
theorem from_bytes_eval (b0 b1 b2 b3 b4 b5 b6 b7 b8 b9 b10 b11 : Nat)
    (tail : List Nat) :
    RconPacket.from_bytes
      (b0 :: b1 :: b2 :: b3 :: b4 :: b5 :: b6 :: b7 :: b8 :: b9 :: b10 ::
        b11 :: tail) =
      (if 12 + tail.length < 12 then
        some (.error (.InvalidPacket tooShortMsg))
      else
        let packet_length : Int := decodeI32LE b0 b1 b2 b3
        if 12 + tail.length ≠ expectedTotalLength packet_length then
          some (.error (.InvalidPacket
            (lengthMismatchMsg (expectedTotalLength packet_length)
              (12 + tail.length))))
        else
          let payload_length : Nat := payloadLengthField packet_length
          if payload_length ≥ 9223372036854775808 then none
          else if payload_length > 0 ∧ 12 + tail.length < 12 + payload_length then
            some (.error (.InvalidPacket
              "Failed to read payload: failed to fill whole buffer"))
          else
            some (.ok
              { request_id := decodeI32LE b4 b5 b6 b7
                packet_type := decodeI32LE b8 b9 b10 b11
                payload := trimTrailingZeros
                  (utf8Lossy (tail.take payload_length)) })) := by
  have hl : (b0 :: b1 :: b2 :: b3 :: b4 :: b5 :: b6 :: b7 :: b8 :: b9 ::
      b10 :: b11 :: tail).length = 12 + tail.length := by
    simp [List.length_cons]
    omega
  rw [RconPacket.from_bytes, hl]
  rfl

/-- An in-range `getD` access returns an element of the list. -/
theorem getD_mem_of_lt (data : List Nat) (k : Nat) (hk : k < data.length) :
    data.getD k 0 ∈ data := by
  rw [List.getD_eq_getElem data 0 hk]
  exact List.getElem_mem hk

/-- Encoding succeeds on payloads within the request size limit, producing the framed bytes. -/
theorem to_bytes_ok (p : RconPacket) (h : p.payload.length ≤ 1446) :
    p.to_bytes = .ok (encodeI32LE ((4 + 4 + p.payload.length + 2 : Nat) : Int)
      ++ encodeI32LE p.request_id ++ encodeI32LE p.packet_type ++ p.payload ++
      [0, 0]) := by
  rw [RconPacket.to_bytes, if_neg (by simp only [MAX_REQUEST_PAYLOAD_SIZE]; omega)]

/-- Encoding fails with the payload-too-large error beyond the request size limit. -/
theorem to_bytes_err (p : RconPacket) (h : 1446 < p.payload.length) :
    p.to_bytes = .error (.InvalidPacket (payloadTooLargeMsg p.payload.length)) := by
  rw [RconPacket.to_bytes, if_pos (by simp only [MAX_REQUEST_PAYLOAD_SIZE]; omega)]

/-- Encoding a packet with in-range fields and then decoding yields the packet with its payload passed through lossy UTF-8 conversion and trailing-null trimming. -/
theorem roundtrip_eval (p : RconPacket)
    (hid1 : -2147483648 ≤ p.request_id) (hid2 : p.request_id < 2147483648)
    (ht1 : -2147483648 ≤ p.packet_type) (ht2 : p.packet_type < 2147483648)
    (hlen : p.payload.length ≤ 1446) :
    roundtrip p = some (.ok
      { request_id := p.request_id, packet_type := p.packet_type,
        payload := trimTrailingZeros (utf8Lossy p.payload) }) := by
  have e1 := decode_encode_i32 ((4 + 4 + p.payload.length + 2 : Nat) : Int)
    (by omega) (by omega)
  have e4 := decode_encode_i32 p.request_id hid1 hid2
  have e5 := decode_encode_i32 p.packet_type ht1 ht2
  have e2 : expectedTotalLength ((4 + 4 + p.payload.length + 2 : Nat) : Int) =
      4 + 4 + p.payload.length + 2 + 4 := by
    unfold expectedTotalLength
    omega
  have e3 : payloadLengthField ((4 + 4 + p.payload.length + 2 : Nat) : Int) =
      p.payload.length := by
    unfold payloadLengthField
    omega
  unfold roundtrip
  rw [to_bytes_ok p hlen]
  simp only [encodeI32LE, List.cons_append, List.nil_append, List.append_assoc]
  rw [from_bytes_eval]
  simp only [e1, e2, e3, e4, e5, List.length_append, List.length_cons,
    List.length_nil]
  rw [if_neg (by omega), if_neg (by omega), if_neg (by omega),
    if_neg (by omega)]
  rw [List.take_left]

/-- Decoding any buffer shorter than 12 bytes fails with the too-short error. -/
theorem from_bytes_too_short (data : List Nat) (h : data.length < 12) :
    RconPacket.from_bytes data = some (.error (.InvalidPacket tooShortMsg)) := by
  rw [RconPacket.from_bytes, if_pos h]

/-- Decoding a buffer of at least 12 bytes whose declared size disagrees with the buffer length fails with the length-mismatch error. -/
theorem from_bytes_length_mismatch (data : List Nat) (h12 : 12 ≤ data.length)
    (hbig : data.length < 9223372036854775808)
    (h256 : ∀ b ∈ data, b < 256)
    (hne : decodeI32LE (data.getD 0 0) (data.getD 1 0) (data.getD 2 0)
      (data.getD 3 0) ≠ (data.length : Int) - 4) :
    RconPacket.from_bytes data = some (.error (.InvalidPacket
      (lengthMismatchMsg
        (expectedTotalLength (decodeI32LE (data.getD 0 0) (data.getD 1 0)
          (data.getD 2 0) (data.getD 3 0))) data.length))) := by
  have hb0 : data.getD 0 0 < 256 := h256 _ (getD_mem_of_lt data 0 (by omega))
  have hb1 : data.getD 1 0 < 256 := h256 _ (getD_mem_of_lt data 1 (by omega))
  have hb2 : data.getD 2 0 < 256 := h256 _ (getD_mem_of_lt data 2 (by omega))
  have hb3 : data.getD 3 0 < 256 := h256 _ (getD_mem_of_lt data 3 (by omega))
  obtain ⟨hs1, hs2⟩ := decodeI32LE_range _ _ _ _ hb0 hb1 hb2 hb3
  rw [RconPacket.from_bytes, if_neg (by omega)]
  rw [if_pos (by unfold expectedTotalLength; omega)]

/-- A packet with a non-matching request id is discarded and the loop continues with the read counter incremented. -/
theorem readCommandLoop_discard (expected : Int) (p : RconPacket)
    (rest : List RconPacket) (acc : List Nat) (r : Nat)
    (h : p.request_id ≠ expected) :
    readCommandLoop expected (p :: rest) acc r =
      readCommandLoop expected rest acc (r + 1) := by
  simp only [readCommandLoop]
  rw [if_pos h]

/-- A matching-id packet that is not a command response aborts the loop with a protocol error. -/
theorem readCommandLoop_wrong_type (expected : Int) (p : RconPacket)
    (rest : List RconPacket) (acc : List Nat) (r : Nat)
    (hid : p.request_id = expected)
    (hty : p.packet_type ≠ packet_type.RESPONSE_VALUE) :
    readCommandLoop expected (p :: rest) acc r =
      (.error (.Protocol (unexpectedTypeMsg p.packet_type)), r + 1) := by
  simp only [readCommandLoop]
  rw [if_neg (by simp [hid]), if_pos (by simp [RconPacket.is_command_response, hty])]

/-- A matching short fragment completes the response. -/
theorem readCommandLoop_short (expected : Int) (p : RconPacket)
    (rest : List RconPacket) (acc : List Nat) (r : Nat)
    (hid : p.request_id = expected)
    (hty : p.packet_type = packet_type.RESPONSE_VALUE)
    (hshort : p.payload.length < MAX_RESPONSE_PAYLOAD_SIZE) :
    readCommandLoop expected (p :: rest) acc r =
      (.ok (acc ++ p.payload), r + 1) := by
  simp only [readCommandLoop]
  rw [if_neg (by simp [hid]),
    if_neg (by simp [RconPacket.is_command_response, hty, packet_type.RESPONSE_VALUE]),
    if_pos hshort]

/-- A matching full 4096-byte fragment is appended and the loop reads on, while within the fragment bound. -/
theorem readCommandLoop_full (expected : Int) (p : RconPacket)
    (rest : List RconPacket) (acc : List Nat) (r : Nat)
    (hid : p.request_id = expected)
    (hty : p.packet_type = packet_type.RESPONSE_VALUE)
    (hfull : p.payload.length = MAX_RESPONSE_PAYLOAD_SIZE) (hr : r < 100) :
    readCommandLoop expected (p :: rest) acc r =
      readCommandLoop expected rest (acc ++ p.payload) (r + 1) := by
  simp only [readCommandLoop]
  rw [if_neg (by simp [hid]),
    if_neg (by simp [RconPacket.is_command_response, hty, packet_type.RESPONSE_VALUE]),
    if_neg (by omega), if_neg (by omega)]

/-- A matching full fragment read as packet 101 or later aborts with the too-many-packets protocol error. -/
theorem readCommandLoop_bound (expected : Int) (p : RconPacket)
    (rest : List RconPacket) (acc : List Nat) (r : Nat)
    (hid : p.request_id = expected)
    (hty : p.packet_type = packet_type.RESPONSE_VALUE)
    (hfull : p.payload.length = MAX_RESPONSE_PAYLOAD_SIZE) (hr : 100 ≤ r) :
    readCommandLoop expected (p :: rest) acc r =
      (.error (.Protocol tooManyPacketsMsg), r + 1) := by
  simp only [readCommandLoop]
  rw [if_neg (by simp [hid]),
    if_neg (by simp [RconPacket.is_command_response, hty, packet_type.RESPONSE_VALUE]),
    if_neg (by omega), if_pos (by omega)]

/-- A run of non-matching packets is wholly discarded, only advancing the read counter. -/
theorem readCommandLoop_discard_run (expected : Int) (ps : List RconPacket)
    (hall : ∀ p ∈ ps, p.request_id ≠ expected) :
    ∀ (rest : List RconPacket) (acc : List Nat) (r : Nat),
      readCommandLoop expected (ps ++ rest) acc r =
        readCommandLoop expected rest acc (r + ps.length) := by
  induction ps with
  | nil => intro rest acc r; simp
  | cons p ps ih =>
    intro rest acc r
    rw [List.cons_append,
      readCommandLoop_discard expected p _ _ _ (hall p (by simp)),
      ih (fun q hq => hall q (by simp [hq])) rest acc (r + 1)]
    congr 1
    simp [List.length_cons]
    omega

/-- A run of matching full fragments within the bound accumulates all their payloads in order. -/
theorem readCommandLoop_full_run (expected : Int) (ps : List RconPacket)
    (hall : ∀ p ∈ ps, p.request_id = expected ∧
      p.packet_type = packet_type.RESPONSE_VALUE ∧
      p.payload.length = MAX_RESPONSE_PAYLOAD_SIZE) :
    ∀ (rest : List RconPacket) (acc : List Nat) (r : Nat),
      r + ps.length ≤ 100 →
      readCommandLoop expected (ps ++ rest) acc r =
        readCommandLoop expected rest
          (acc ++ (ps.map RconPacket.payload).flatten) (r + ps.length) := by
  induction ps with
  | nil => intro rest acc r _; simp
  | cons p ps ih =>
    intro rest acc r h
    obtain ⟨h1, h2, h3⟩ := hall p (by simp)
    rw [List.cons_append,
      readCommandLoop_full expected p _ _ _ h1 h2 h3
        (by simp only [List.length_cons] at h; omega),
      ih (fun q hq => hall q (by simp [hq])) rest (acc ++ p.payload) (r + 1)
        (by simp only [List.length_cons] at h; omega)]
    simp only [List.map_cons, List.flatten_cons, List.length_cons, List.append_assoc]
    congr 1
    omega

/-- A run of matching full fragments long enough to pass 101 reads fails with the too-many-packets protocol error at read 101. -/
theorem readCommandLoop_too_many (expected : Int) (ps : List RconPacket)
    (hall : ∀ p ∈ ps, p.request_id = expected ∧
      p.packet_type = packet_type.RESPONSE_VALUE ∧
      p.payload.length = MAX_RESPONSE_PAYLOAD_SIZE) :
    ∀ (rest : List RconPacket) (acc : List Nat) (r : Nat),
      101 ≤ r + ps.length → r ≤ 100 →
      readCommandLoop expected (ps ++ rest) acc r =
        (.error (.Protocol tooManyPacketsMsg), 101) := by
  induction ps with
  | nil =>
    intro rest acc r h1 h2
    simp only [List.length_nil] at h1
    omega
  | cons p ps ih =>
    intro rest acc r h1 h2
    obtain ⟨h3, h4, h5⟩ := hall p (by simp)
    by_cases hr : r = 100
    · subst hr
      rw [List.cons_append,
        readCommandLoop_bound expected p _ _ _ h3 h4 h5 (by omega)]
    · rw [List.cons_append,
        readCommandLoop_full expected p _ _ _ h3 h4 h5 (by omega)]
      exact ih (fun q hq => hall q (by simp [hq])) rest (acc ++ p.payload)
        (r + 1) (by simp only [List.length_cons] at h1; omega) (by omega)

/-- C1 counterexample: the round-trip claim fails on a payload that ends in a
null byte.  Encoding the packet with request id 1, type 0 and the one-byte
payload `"\x00"` and decoding the result yields the empty payload, because
`from_bytes` trims trailing null characters from the decoded payload; the
decoded packet therefore differs from the original. -/
theorem C1_roundtrip_counterexample :
    roundtrip ⟨1, 0, [0]⟩ = some (.ok ⟨1, 0, []⟩) ∧
    (⟨1, 0, []⟩ : RconPacket) ≠ ⟨1, 0, [0]⟩ := by decide

/-- C1 (amended): for every request id and packet type in the `i32` range and
every valid-UTF-8 payload of at most 1446 bytes, decoding the bytes produced
by encoding yields exactly the original request id and type, and the payload
with its trailing null bytes removed; in particular the round-trip is exact
for every payload that does not end in a null byte. -/
theorem C1_roundtrip_amended (id t : Int) (payload : List Nat)
    (hid1 : -2147483648 ≤ id) (hid2 : id < 2147483648)
    (ht1 : -2147483648 ≤ t) (ht2 : t < 2147483648)
    (hv : utf8Lossy payload = payload) (hlen : payload.length ≤ 1446) :
    roundtrip ⟨id, t, payload⟩ =
      some (.ok ⟨id, t, trimTrailingZeros payload⟩) ∧
    (payload.getLast? ≠ some 0 →
      roundtrip ⟨id, t, payload⟩ = some (.ok ⟨id, t, payload⟩)) := by
  have key : roundtrip ⟨id, t, payload⟩ =
      some (.ok ⟨id, t, trimTrailingZeros (utf8Lossy payload)⟩) :=
    roundtrip_eval ⟨id, t, payload⟩ hid1 hid2 ht1 ht2 hlen
  rw [hv] at key
  refine ⟨key, fun hz => ?_⟩
  rw [key, trimTrailingZeros_eq_self payload hz]

/-- C1 amended-claim witness at concrete inputs: the payload `"h\x00"` decodes
back to `"h"`, and the null-free payload `"hi"` round-trips exactly. -/
theorem C1_roundtrip_amended_witness :
    roundtrip ⟨1, 0, [104, 0]⟩ = some (.ok ⟨1, 0, [104]⟩) ∧
    roundtrip ⟨1, 0, [104, 105]⟩ = some (.ok ⟨1, 0, [104, 105]⟩) := by
  constructor
  · exact ((C1_roundtrip_amended 1 0 [104, 0] (by decide) (by decide)
      (by decide) (by decide) (by decide) (by decide)).1).trans (by decide)
  · exact (C1_roundtrip_amended 1 0 [104, 105] (by decide) (by decide)
      (by decide) (by decide) (by decide) (by decide)).2 (by decide)

/-- C2: `from_bytes` is not total.  The size validation of `read_packet`
accepts declared sizes 8 and 9, yet on a buffer that passes the
minimum-length check (length at least 12) and the length-match check
(length equals size + 4) with declared size 8 or 9, the payload-length
subtraction `size - 8 - 2` wraps below zero, so `from_bytes` crashes (debug
builds panic in the subtraction; release builds abort allocating the wrapped
length) instead of returning a packet or an error. -/
theorem C2_from_bytes_crash :
    read_packet_size_valid 8 = true ∧ read_packet_size_valid 9 = true ∧
    RconPacket.from_bytes [8, 0, 0, 0, 0, 0, 0, 0, 0, 0, 0, 0] = none ∧
    RconPacket.from_bytes [9, 0, 0, 0, 0, 0, 0, 0, 0, 0, 0, 0, 0] = none := by
  decide

/-- C3 counterexample: the allocation immediately following the id 2147483647
does not yield 1: the counter wraps by `wrapping_add` to -2147483648, which
is not -1 and is therefore kept, so the next allocation yields
-2147483648. -/
theorem C3_request_id_counterexample :
    (next_request_id 2147483647).1 = 2147483647 ∧
    (next_request_id 2147483647).2 = -2147483648 ∧
    (next_request_id (-2147483648)).1 = -2147483648 ∧
    ((-2147483648 : Int) ≠ 1) := by decide

/-- C3 (amended): the per-connection request-id allocator starts at 1,
returns the stored counter, and never allocates -1: the successor is the
`i32` wrapping increment except that -1 is skipped to 1 (so the allocation
after -2 yields 1), while the allocation immediately following 2147483647
yields -2147483648 by `i32` wraparound, not 1. -/
theorem C3_request_id_amended (s : Int)
    (h1 : -2147483648 ≤ s) (h2 : s < 2147483648) (h3 : s ≠ -1) :
    initial_next_request_id = 1 ∧
    (next_request_id s).1 = s ∧
    (next_request_id s).1 ≠ -1 ∧
    (next_request_id s).2 ≠ -1 ∧
    -2147483648 ≤ (next_request_id s).2 ∧
    (next_request_id s).2 < 2147483648 ∧
    (s ≠ 2147483647 → s ≠ -2 → (next_request_id s).2 = s + 1) ∧
    (s = -2 → (next_request_id s).2 = 1) ∧
    (s = 2147483647 → (next_request_id s).2 = -2147483648) := by
  simp only [next_request_id, i32_wrapping_add, initial_next_request_id]
  split <;>
    refine ⟨trivial, trivial, ?_, ?_, ?_, ?_, fun ha hb => ?_, fun ha => ?_, fun ha => ?_⟩ <;>
    omega

/-- C3 amended-claim witness: starting from counter 2147483646 the two
successive allocations yield 2147483646 and then 2147483647, and -1 is never
emitted. -/
theorem C3_request_id_amended_witness :
    (next_request_id 2147483646).1 = 2147483646 ∧
    (next_request_id 2147483646).2 = 2147483647 ∧
    (next_request_id 2147483647).1 = 2147483647 ∧
    (next_request_id 2147483647).2 ≠ -1 := by
  have h1 := C3_request_id_amended 2147483646 (by decide) (by decide) (by decide)
  have h2 := C3_request_id_amended 2147483647 (by decide) (by decide) (by decide)
  have h6 := h1.2.2.2.2.2.2.1 (by decide) (by decide)
  exact ⟨h1.2.1, by omega, h2.2.1, h2.2.2.2.1⟩

/-- C4 counterexample: authentication does not succeed whenever the
request id of the response equals the fresh id: a response carrying the matching
request id 5 but packet type `RESPONSE_VALUE(0)` still fails with
`AuthenticationFailed`, because `auth_successful` also requires the type to
be `EXECCOMMAND(2)`. -/
theorem C4_auth_counterexample :
    (⟨5, packet_type.RESPONSE_VALUE, []⟩ : RconPacket).request_id = 5 ∧
    authenticate_step 5 ⟨5, packet_type.RESPONSE_VALUE, []⟩ =
      .error .AuthenticationFailed := by decide

/-- C4 (amended): `authenticate` sends one AUTH packet with a fresh request
id and reads exactly one response; it succeeds if and only if the packet type
of the response is `EXECCOMMAND(2)` and its request id equals the fresh id, and
any request-id mismatch - including a response with request id -1,
regardless of its declared packet type - yields `AuthenticationFailed`. -/
theorem C4_auth_amended (rid : Int) (resp : RconPacket) :
    (authenticate_step rid resp = .ok () ↔
      resp.packet_type = packet_type.EXECCOMMAND ∧ resp.request_id = rid) ∧
    (resp.request_id ≠ rid →
      authenticate_step rid resp = .error .AuthenticationFailed) := by
  simp only [authenticate_step, RconPacket.auth_successful,
    RconPacket.is_auth_response]
  by_cases h1 : resp.packet_type = packet_type.EXECCOMMAND <;>
    by_cases h2 : resp.request_id = rid <;>
      simp [h1, h2]

/-- C4 amended-claim witness: a response with request id -1 and packet type
`EXECCOMMAND(2)` is rejected with `AuthenticationFailed`. -/
theorem C4_auth_amended_witness :
    authenticate_step 1 ⟨-1, packet_type.EXECCOMMAND, []⟩ =
      .error .AuthenticationFailed :=
  (C4_auth_amended 1 ⟨-1, packet_type.EXECCOMMAND, []⟩).2 (by decide)

/-- C5: a `RESPONSE_VALUE` packet carrying the expected request id whose
payload is strictly shorter than 4096 bytes completes the response and stops
the read loop after that read, while a payload of exactly 4096 bytes causes
the loop to read on; consequently, for fragments of payload lengths
`[4096, 4096, 120]` all carrying the expected request id 7, the reassembled
result is the concatenation of the three payloads in order and exactly 3
reads occur, whatever packets follow. -/
theorem C5_fragment_boundary :
    (∀ (e : Int) (p : RconPacket) (rest : List RconPacket),
      p.request_id = e → p.packet_type = packet_type.RESPONSE_VALUE →
      p.payload.length < MAX_RESPONSE_PAYLOAD_SIZE →
      read_command_response e (p :: rest) = (.ok p.payload, 1)) ∧
    (∀ (e : Int) (p : RconPacket) (rest : List RconPacket),
      p.request_id = e → p.packet_type = packet_type.RESPONSE_VALUE →
      p.payload.length = MAX_RESPONSE_PAYLOAD_SIZE →
      read_command_response e (p :: rest) =
        readCommandLoop e rest p.payload 1) ∧
    (∀ (a b c : List Nat) (rest : List RconPacket),
      a.length = 4096 → b.length = 4096 → c.length = 120 →
      read_command_response 7
        (⟨7, packet_type.RESPONSE_VALUE, a⟩ ::
          ⟨7, packet_type.RESPONSE_VALUE, b⟩ ::
          ⟨7, packet_type.RESPONSE_VALUE, c⟩ :: rest) =
        (.ok (a ++ b ++ c), 3)) := by
  refine ⟨?_, ?_, ?_⟩
  · intro e p rest h1 h2 h3
    unfold read_command_response
    rw [readCommandLoop_short e p rest [] 0 h1 h2 h3]
    simp
  · intro e p rest h1 h2 h3
    unfold read_command_response
    rw [readCommandLoop_full e p rest [] 0 h1 h2 h3 (by omega)]
    simp
  · intro a b c rest h1 h2 h3
    unfold read_command_response
    rw [readCommandLoop_full 7 _ _ _ _ rfl rfl (by exact h1) (by omega),
      readCommandLoop_full 7 _ _ _ _ rfl rfl (by exact h2) (by omega),
      readCommandLoop_short 7 _ _ _ _ rfl rfl
        (by simp only [MAX_RESPONSE_PAYLOAD_SIZE]; omega)]
    simp

/-- C5 witness at concrete fragments: three `RESPONSE_VALUE` packets with
request id 7 and payload lengths 4096, 4096 and 120 reassemble to the
concatenation of the payloads in exactly 3 reads. -/
theorem C5_fragment_boundary_witness :
    read_command_response 7
      [⟨7, packet_type.RESPONSE_VALUE, List.replicate 4096 97⟩,
       ⟨7, packet_type.RESPONSE_VALUE, List.replicate 4096 98⟩,
       ⟨7, packet_type.RESPONSE_VALUE, List.replicate 120 99⟩] =
      (.ok (List.replicate 4096 97 ++ List.replicate 4096 98 ++
        List.replicate 120 99), 3) :=
  C5_fragment_boundary.2.2 _ _ _ []
    (by simp only [List.length_replicate]) (by simp only [List.length_replicate])
    (by simp only [List.length_replicate])

/-- C6 counterexample: after 100 full matching fragments have been read
without a terminating short fragment, the operation does not fail; it reads
one more packet, and when that 101st packet is a short fragment the command
succeeds after 101 reads. -/
theorem C6_too_many_counterexample :
    (read_command_response 7
      (List.replicate 100 ⟨7, packet_type.RESPONSE_VALUE,
        List.replicate 4096 97⟩ ++
        [⟨7, packet_type.RESPONSE_VALUE, List.replicate 120 98⟩])).2 = 101 ∧
    ((read_command_response 7
      (List.replicate 100 ⟨7, packet_type.RESPONSE_VALUE,
        List.replicate 4096 97⟩ ++
        [⟨7, packet_type.RESPONSE_VALUE, List.replicate 120 98⟩])).1).isOk =
      true := by
  have hall : ∀ p ∈ List.replicate 100 (⟨7, packet_type.RESPONSE_VALUE,
      List.replicate 4096 97⟩ : RconPacket), p.request_id = 7 ∧
      p.packet_type = packet_type.RESPONSE_VALUE ∧
      p.payload.length = MAX_RESPONSE_PAYLOAD_SIZE := by
    intro p hp
    rw [List.eq_of_mem_replicate hp]
    exact ⟨rfl, rfl,
      by simp only [List.length_replicate, MAX_RESPONSE_PAYLOAD_SIZE]⟩
  constructor <;>
  · unfold read_command_response
    rw [readCommandLoop_full_run 7 _ hall
        [⟨7, packet_type.RESPONSE_VALUE, List.replicate 120 98⟩] [] 0
        (by rw [List.length_replicate]),
      readCommandLoop_short 7 _ _ _ _ rfl rfl
        (by simp only [List.length_replicate, MAX_RESPONSE_PAYLOAD_SIZE]; omega)]
    simp only [List.length_replicate, Except.isOk, Except.toBool]

/-- C6 (amended): reassembly of one logical response aborts with
`ProtocolError` ("Too many response packets received") after 101 packets:
once 101 packets have been read for a single logical response without a
terminating short fragment, the operation fails with `ProtocolError` rather
than reading further, so after 101 fragment reads without a terminating
short packet the operation has failed with `ProtocolError`. -/
theorem C6_too_many_amended (expected : Int) (ps rest : List RconPacket)
    (hlen : ps.length = 101)
    (hall : ∀ p ∈ ps, p.request_id = expected ∧
      p.packet_type = packet_type.RESPONSE_VALUE ∧
      p.payload.length = MAX_RESPONSE_PAYLOAD_SIZE) :
    read_command_response expected (ps ++ rest) =
      (.error (.Protocol tooManyPacketsMsg), 101) := by
  unfold read_command_response
  exact readCommandLoop_too_many expected ps hall rest [] 0 (by omega) (by omega)

/-- C6 amended-claim witness: a stream of 101 full matching fragments fails
with the too-many-packets `ProtocolError` after exactly 101 reads. -/
theorem C6_too_many_amended_witness :
    read_command_response 7
      (List.replicate 101 ⟨7, packet_type.RESPONSE_VALUE,
        List.replicate 4096 97⟩ ++ []) =
      (.error (.Protocol tooManyPacketsMsg), 101) :=
  C6_too_many_amended 7 _ [] (by rw [List.length_replicate])
    (by
      intro p hp
      rw [List.eq_of_mem_replicate hp]
      exact ⟨rfl, rfl,
        by simp only [List.length_replicate, MAX_RESPONSE_PAYLOAD_SIZE]⟩)

/-- C7: the read loop is not bounded by 101 reads.  Discarded packets with a
non-matching request id are counted by `packets_received` but the
too-many-fragments check is skipped on the discard path, so 101 wrong-id
packets followed by one matching short packet make `read_command_response`
succeed after 102 reads; a stream of only wrong-id packets is read without
bound. -/
theorem C7_unbounded_reads :
    read_command_response 7
      (List.replicate 101 ⟨3, packet_type.RESPONSE_VALUE, []⟩ ++
        [⟨7, packet_type.RESPONSE_VALUE, []⟩]) = (.ok [], 102) := by
  unfold read_command_response
  rw [readCommandLoop_discard_run 7 _
    (by
      intro p hp
      rw [List.eq_of_mem_replicate hp]
      decide) _ [] 0]
  rw [readCommandLoop_short 7 _ _ _ _ rfl rfl (by decide)]
  simp only [List.length_replicate, List.nil_append]

/-- C8: during reassembly, every packet whose request id differs from the
expected id is discarded and reading continues without error and without
contributing to the accumulated response, while a packet carrying the
expected id whose type is not `RESPONSE_VALUE(0)` aborts the command with a
`ProtocolError`; a packet with request id 3 interleaved among request id 7
fragments does not abort reassembly of id 7. -/
theorem C8_stale_filtering :
    (∀ (e : Int) (p : RconPacket) (rest : List RconPacket) (acc : List Nat)
      (r : Nat), p.request_id ≠ e →
      readCommandLoop e (p :: rest) acc r =
        readCommandLoop e rest acc (r + 1)) ∧
    (∀ (e : Int) (p : RconPacket) (rest : List RconPacket) (acc : List Nat)
      (r : Nat), p.request_id = e →
      p.packet_type ≠ packet_type.RESPONSE_VALUE →
      readCommandLoop e (p :: rest) acc r =
        (.error (.Protocol (unexpectedTypeMsg p.packet_type)), r + 1)) ∧
    (∀ (a c : List Nat) (q : RconPacket),
      a.length = 4096 → c.length = 120 → q.request_id = 3 →
      read_command_response 7
        [⟨7, packet_type.RESPONSE_VALUE, a⟩, q,
         ⟨7, packet_type.RESPONSE_VALUE, c⟩] = (.ok (a ++ c), 3)) := by
  refine ⟨readCommandLoop_discard, readCommandLoop_wrong_type, ?_⟩
  intro a c q h1 h2 h3
  unfold read_command_response
  rw [readCommandLoop_full 7 _ _ _ _ rfl rfl (by exact h1) (by omega),
    readCommandLoop_discard 7 q _ _ _ (by omega),
    readCommandLoop_short 7 _ _ _ _ rfl rfl
      (by simp only [MAX_RESPONSE_PAYLOAD_SIZE]; omega)]
  simp

/-- C8 witness at concrete packets: a stale packet with request id 3
interleaved between two id-7 fragments is skipped and the id-7 response is
reassembled from its own fragments in 3 reads. -/
theorem C8_stale_filtering_witness :
    read_command_response 7
      [⟨7, packet_type.RESPONSE_VALUE, List.replicate 4096 97⟩,
       ⟨3, packet_type.EXECCOMMAND, [53]⟩,
       ⟨7, packet_type.RESPONSE_VALUE, List.replicate 120 98⟩] =
      (.ok (List.replicate 4096 97 ++ List.replicate 120 98), 3) :=
  C8_stale_filtering.2.2 _ _ ⟨3, packet_type.EXECCOMMAND, [53]⟩
    (by simp only [List.length_replicate]) (by simp only [List.length_replicate])
    rfl

/-- C9: `to_bytes` fails with the payload-too-large error if and only if the
payload exceeds 1446 bytes: every payload of at most 1446 bytes encodes
successfully to the framed bytes, and every longer payload yields the
payload-too-large `InvalidPacket` error. -/
theorem C9_payload_too_large (p : RconPacket) :
    (p.payload.length ≤ 1446 →
      p.to_bytes = .ok (encodeI32LE ((4 + 4 + p.payload.length + 2 : Nat) : Int)
        ++ encodeI32LE p.request_id ++ encodeI32LE p.packet_type ++ p.payload ++
        [0, 0])) ∧
    (1446 < p.payload.length →
      p.to_bytes = .error (.InvalidPacket (payloadTooLargeMsg p.payload.length))) :=
  ⟨to_bytes_ok p, to_bytes_err p⟩

/-- C9 witness at concrete packets: a 1-byte payload encodes to its 15-byte
frame and a 1447-byte payload is rejected as too large. -/
theorem C9_payload_too_large_witness :
    (⟨5, 2, [97]⟩ : RconPacket).to_bytes =
      .ok [11, 0, 0, 0, 5, 0, 0, 0, 2, 0, 0, 0, 97, 0, 0] ∧
    (⟨5, 2, List.replicate 1447 97⟩ : RconPacket).to_bytes =
      .error (.InvalidPacket (payloadTooLargeMsg 1447)) := by
  constructor
  · exact ((C9_payload_too_large ⟨5, 2, [97]⟩).1 (by decide)).trans (by decide)
  · exact ((C9_payload_too_large ⟨5, 2, List.replicate 1447 97⟩).2
      (by rw [List.length_replicate]; omega)).trans
      (by rw [List.length_replicate])

/-- C10: `from_bytes` fails with the too-short error (`Truncated`) for every
buffer shorter than 12 bytes, and for every byte buffer of at least 12 bytes
(within the slice size limit) it fails with the length-mismatch error
(`LengthMismatch`) whenever the declared 4-byte little-endian size field
does not equal the buffer length minus 4. -/
theorem C10_decode_errors (data : List Nat) :
    (data.length < 12 →
      RconPacket.from_bytes data = some (.error (.InvalidPacket tooShortMsg))) ∧
    (12 ≤ data.length → data.length < 9223372036854775808 →
      (∀ b ∈ data, b < 256) →
      decodeI32LE (data.getD 0 0) (data.getD 1 0) (data.getD 2 0)
          (data.getD 3 0) ≠ (data.length : Int) - 4 →
      RconPacket.from_bytes data = some (.error (.InvalidPacket
        (lengthMismatchMsg (expectedTotalLength (decodeI32LE (data.getD 0 0)
          (data.getD 1 0) (data.getD 2 0) (data.getD 3 0))) data.length)))) :=
  ⟨from_bytes_too_short data, from_bytes_length_mismatch data⟩

/-- C10 witness at concrete buffers: a 3-byte buffer is rejected as too
short, and a 12-byte buffer declaring size 5 is rejected with the
length-mismatch error naming expected total length 9 against actual 12. -/
theorem C10_decode_errors_witness :
    RconPacket.from_bytes [1, 2, 3] =
      some (.error (.InvalidPacket tooShortMsg)) ∧
    RconPacket.from_bytes [5, 0, 0, 0, 0, 0, 0, 0, 0, 0, 0, 0] =
      some (.error (.InvalidPacket (lengthMismatchMsg 9 12))) := by
  constructor
  · exact (C10_decode_errors [1, 2, 3]).1 (by decide)
  · exact ((C10_decode_errors [5, 0, 0, 0, 0, 0, 0, 0, 0, 0, 0, 0]).2
      (by decide) (by decide) (by decide) (by decide)).trans (by decide)
